import Mathlib

/-!
Verification of the reminder lifecycle engine of the ReminderApp repository.

The development is a shallow embedding of the Python sources:

* `src/database.py` — class `Database`: the rows of the sqlite table
  `reminders` become a `List Reminder`; each method that mutates the table
  becomes a function from the old row list to the new one, and methods that
  can raise `ValueError` return `Except DBError _`.  Status values are the
  exact Russian string literals the source stores.
* `src/scheduler.py` — `check_reminders`, the body of one scheduler tick.
* `src/ui.py` — `App._snooze_reminder` and the `active_notification_id`
  slot, embedded as a pure transition on an `AppState`.

Modelling conventions:
* Timestamps: the source stores `due_datetime` as ISO-8601 text produced by
  `datetime.isoformat()` and compares it both as text (SQL `<`) and as parsed
  `datetime` objects (`<=` in the scheduler).  For text of this uniform
  format the two orders agree, so a stored timestamp is embedded as the
  instant it denotes, an `Int` number of seconds; `timedelta(minutes=m)` is
  `60 * m` seconds.
* Textual timestamp input to `add/update` is a `DateInput`: either valid
  ISO text denoting an instant, non-empty text `fromisoformat` rejects, or
  the empty string (falsy in Python).
* sqlite I/O errors and a missing connection are not modelled: the
  embedding is the behaviour on an open, healthy database.
* `print` calls and message dialogs are modelled by the result value of the
  embedded function (e.g. the constructors of `SnoozeResult` correspond to
  which dialog `_snooze_reminder` shows).
-/

/-- One row of the sqlite table `reminders` (`src/database.py`,
`create_table`): columns `id`, `title`, `description`, `due_datetime`
(embedded as the instant it denotes, in seconds), `status`. -/
structure Reminder where
  id : Int
  title : String
  description : String
  due : Int
  status : String
deriving DecidableEq, Repr

/-- A Python string offered as a `due_datetime` argument, as seen by the
validation in `add_reminder` / `update_reminder`: `iso t` is well-formed
ISO-8601 text denoting the instant `t`; `malformed s` is non-empty text that
`datetime.datetime.fromisoformat` rejects; `empty` is the empty string,
which is falsy and caught by the `not due_datetime` check. -/
inductive DateInput where
  | iso (t : Int)
  | malformed (s : String)
  | empty
deriving DecidableEq, Repr

/-- The exception an embedded `Database` method raises: `valueError` for
Python `ValueError` (validation failures; the spec calls these
`ValidationError`), `runtimeError` for Python `RuntimeError`.  The message
text is not modelled. -/
inductive DBError where
  | valueError
  | runtimeError
deriving DecidableEq, Repr

/-- Database.update_reminder_status (src/database.py lines 153-167): runs
`UPDATE reminders SET status = ? WHERE id = ?` and commits.  It raises
nothing; an id matching no row simply updates zero rows. -/
def update_reminder_status (reminder_id : Int) (status : String)
    (db : List Reminder) : List Reminder :=
  db.map fun r => if r.id = reminder_id then { r with status := status } else r

/-- Database.update_reminder (src/database.py lines 117-151): validates that
the title is a non-empty string, that the id is a positive integer and that
`due_datetime` is non-empty text accepted by `fromisoformat`, raising
`ValueError` otherwise, and only then runs
`UPDATE reminders SET title = ?, description = ?, due_datetime = ? WHERE id = ?`.
On an error no SQL has been executed, so the table is left as it was; the
embedding returns the new table only in the `.ok` case.  The SQL does not
touch the `status` column.  (`description or ""` is the identity on the
`str` arguments the callers pass.) -/
def update_reminder (reminder_id : Int) (title : String) (description : String)
    (due_datetime : DateInput) (db : List Reminder) :
    Except DBError (List Reminder) :=
  if title = "" then .error .valueError
  else if reminder_id ≤ 0 then .error .valueError
  else
    match due_datetime with
    | .empty => .error .valueError
    | .malformed _ => .error .valueError
    | .iso t =>
        .ok (db.map fun r =>
          if r.id = reminder_id then
            { r with title := title, description := description, due := t }
          else r)

/-- The test of `if status_filter and status_filter != "Все" and
status_filter not in (...)` in Database.get_reminders (line 100): a falsy
filter (None or the empty string) is never invalid. -/
def filterInvalid : Option String → Bool
  | none => false
  | some s =>
      s != "" && s != "Все" &&
        !(["Ожидает", "Выполнено", "Просрочено", "Отменено"].contains s)

/-- Database.get_reminders (src/database.py lines 83-115): validates
`sort_order` against `("ASC", "DESC")` and then the status filter, raising
`ValueError` on either; a truthy filter other than "Все" becomes a
`WHERE status = ?` clause, and the rows come back ordered by `due_datetime`.
The embedding orders with insertion sort; SQL leaves the relative order of
equal keys unspecified, and no theorem below depends on it. -/
def get_reminders (status_filter : Option String) (sort_order : String)
    (db : List Reminder) : Except DBError (List Reminder) :=
  if ¬(sort_order = "ASC" ∨ sort_order = "DESC") then .error .valueError
  else if filterInvalid status_filter then .error .valueError
  else
    let rows :=
      match status_filter with
      | none => db
      | some s => if s != "" && s != "Все" then db.filter (fun r => r.status == s) else db
    if sort_order = "ASC" then
      .ok (List.insertionSort (fun a b => a.due ≤ b.due) rows)
    else
      .ok (List.insertionSort (fun a b => b.due ≤ a.due) rows)

/-- The row list `get_reminders(status_filter="Ожидает")` produces (the
scheduler tick uses the default "ASC" order): the rows with status
`Ожидает`, ordered by due time. -/
def pendingOf (db : List Reminder) : List Reminder :=
  List.insertionSort (fun a b => a.due ≤ b.due)
    (db.filter (fun r => r.status == "Ожидает"))

/-- The WHERE clause of Database.update_overdue_reminders (line 200):
`status = Ожидает AND due_datetime < buffer_iso`, where `buffer_iso` is
now minus the two-minute buffer (`timedelta(minutes=2)` = 120 seconds). -/
def isOverduePending (now : Int) (r : Reminder) : Bool :=
  r.status == "Ожидает" && decide (r.due < now - 120)

/-- The effect of that UPDATE on one row. -/
def reclassifyRow (now : Int) (r : Reminder) : Reminder :=
  if isOverduePending now r then { r with status := "Просрочено" } else r

/-- Database.update_overdue_reminders (src/database.py lines 184-207), its
effect on the table: every Pending row more than 120 seconds past due at
`now` (the method reads `datetime.datetime.now()` itself) gets status
`Просрочено`. -/
def update_overdue_reminders (now : Int) (db : List Reminder) : List Reminder :=
  db.map (reclassifyRow now)

/-- The `updated_count` local of update_overdue_reminders (line 201):
`cursor.rowcount` of the UPDATE, i.e. how many rows the WHERE clause
matched. -/
def update_overdue_count (now : Int) (db : List Reminder) : Nat :=
  (db.filter (isOverduePending now)).length

/-- The value a call of Database.update_overdue_reminders evaluates to: the
method body has no return statement, so the call returns Python None
whatever the table holds; `updated_count` is only printed in a debug line
(line 204). -/
def update_overdue_reminders_return (_now : Int) (_db : List Reminder) : Option Nat :=
  none

/-- How many rows update_overdue_reminders changed from `Ожидает` (Pending)
to `Просрочено` (Overdue): rows paired before/after whose status made that
transition. -/
def changedToOverdue (now : Int) (db : List Reminder) : Nat :=
  ((db.zip (update_overdue_reminders now db)).filter
    (fun p => p.1.status == "Ожидает" && p.2.status == "Просрочено")).length

/-- One iteration of the loop in check_reminders (src/scheduler.py lines
30-62) over the accumulated (table, fired ids) pair: if the reminder is
due (`due_datetime <= now`), send_notification is attempted — any exception
it raises is caught by the inner `try/except` and only printed, so its
outcome `deliver r.id` does not influence the state — and then
`update_reminder_status(reminder_id, "Выполнено")` runs.  A reminder not
yet due is skipped. -/
def tickStep (now : Int) (deliver : Int → Bool)
    (acc : List Reminder × List Int) (r : Reminder) : List Reminder × List Int :=
  if r.due ≤ now then
    let _notified := deliver r.id
    (update_reminder_status r.id "Выполнено" acc.1, acc.2 ++ [r.id])
  else acc

/-- check_reminders (src/scheduler.py lines 7-62), one scheduler tick:
reads `now`, calls `db.update_overdue_reminders()` (which reads its own,
slightly later clock, the `reclassify_now` argument here), aborts the tick
if that raises, fetches the rows with status `Ожидает`, aborts if that
raises, and runs the per-reminder loop.  The `deliver` argument is the
external notification transport: `deliver i` is whether delivery for
reminder `i` succeeded, an outcome the tick logs but never acts on.  The
result is the final table together with the ids for which a notification
was attempted, in order. -/
def check_reminders (now : Int) (reclassify_now : Int) (deliver : Int → Bool)
    (db : List Reminder) : List Reminder × List Int :=
  let db1 := update_overdue_reminders reclassify_now db
  match get_reminders (some "Ожидает") "ASC" db1 with
  | .error _ => (db1, [])
  | .ok pending => pending.foldl (tickStep now deliver) (db1, [])

/-- Two-digit zero-padded rendering used for clock components. -/
def two_digits (n : Nat) : String :=
  if n < 10 then "0" ++ toString n else toString n

/-- The `now.strftime` clock text interpolated into the snooze audit note
(src/ui.py line 498), on an instant measured in seconds. -/
def strftime_hms (now : Int) : String :=
  two_digits ((now / 3600) % 24).toNat ++ ":" ++
    two_digits ((now / 60) % 60).toNat ++ ":" ++ two_digits (now % 60).toNat

/-- The audit text App._snooze_reminder appends to the stored description
(src/ui.py line 498). -/
def snooze_suffix (minutes : Int) (now : Int) : String :=
  "\n\nОтложено на " ++ toString minutes ++ " мин. в " ++ strftime_hms now

/-- The state _snooze_reminder reads and writes: the reminder table behind
`self.db` and the single `active_notification_id` slot (src/ui.py line
265), which `set_active_notification` fills from the scheduler thread and
snooze consumes. -/
structure AppState where
  db : List Reminder
  active_notification_id : Option Int
deriving DecidableEq, Repr

/-- Which dialog App._snooze_reminder ends in — its observable outcome:
`noActiveNotification` is the `showwarning("Нет активного уведомления", ...)`
branch, `activeNotFound` the `showerror` branch for a reminder missing from
the table, `snoozeFailed` the `except` branch around the body, and
`snoozed` the success `showinfo`. -/
inductive SnoozeResult where
  | noActiveNotification
  | activeNotFound
  | snoozeFailed
  | snoozed
deriving DecidableEq, Repr

/-- App._snooze_reminder (src/ui.py lines 467-512): with an empty slot it
only shows a warning; otherwise it scans `get_reminders()` (no filter,
default "ASC" order) for the first row with the active id, clearing the
slot and showing an error if none is found; otherwise it computes
`new_due_time = now + timedelta(minutes=minutes)` from its own clock,
calls `update_reminder` with the same title, the description plus the
audit suffix, and the new time as ISO text, and on success clears the slot
and refreshes the list.  If `update_reminder` raises, the `except` branch
shows an error and the slot keeps its value. -/
def snooze_reminder (minutes : Int) (now : Int) (st : AppState) :
    SnoozeResult × AppState :=
  match st.active_notification_id with
  | none => (.noActiveNotification, st)
  | some rid =>
    match get_reminders none "ASC" st.db with
    | .error _ => (.snoozeFailed, st)
    | .ok reminders =>
      match reminders.find? (fun r => r.id == rid) with
      | none => (.activeNotFound, { st with active_notification_id := none })
      | some r =>
        let new_due := now + 60 * minutes
        match update_reminder rid r.title
            (r.description ++ snooze_suffix minutes now) (.iso new_due) st.db with
        | .error _ => (.snoozeFailed, st)
        | .ok db2 => (.snoozed, { db := db2, active_notification_id := none })

lemma reclassifyRow_id (now : Int) (r : Reminder) : (reclassifyRow now r).id = r.id := by
  rw [reclassifyRow]; split <;> rfl

lemma reclassifyRow_due (now : Int) (r : Reminder) : (reclassifyRow now r).due = r.due := by
  rw [reclassifyRow]; split <;> rfl

lemma isOverduePending_iff {now : Int} {r : Reminder} :
    isOverduePending now r = true ↔ r.status = "Ожидает" ∧ r.due < now - 120 := by
  simp [isOverduePending]

lemma reclassifyRow_overdue {now : Int} {r : Reminder}
    (hs : r.status = "Ожидает") (hd : r.due < now - 120) :
    reclassifyRow now r = { r with status := "Просрочено" } := by
  rw [reclassifyRow, if_pos (isOverduePending_iff.2 ⟨hs, hd⟩)]

lemma reclassifyRow_not_overdue {now : Int} {r : Reminder}
    (h : ¬(r.status = "Ожидает" ∧ r.due < now - 120)) :
    reclassifyRow now r = r := by
  rw [reclassifyRow, if_neg]
  exact fun hc => h (isOverduePending_iff.1 hc)

lemma reclassifyRow_status_pending {now : Int} {r : Reminder} :
    (reclassifyRow now r).status = "Ожидает" ↔
      r.status = "Ожидает" ∧ ¬(r.due < now - 120) := by
  rw [reclassifyRow]
  by_cases h : isOverduePending now r = true
  · rw [if_pos h]
    rcases isOverduePending_iff.1 h with ⟨h1, h2⟩
    exact iff_of_false (by simp) (fun hc => hc.2 h2)
  · rw [if_neg h]
    constructor
    · intro hs
      exact ⟨hs, fun hd => h (isOverduePending_iff.2 ⟨hs, hd⟩)⟩
    · intro hc
      exact hc.1

lemma reclassifyRow_status_completed {now : Int} {r : Reminder} :
    (reclassifyRow now r).status = "Выполнено" ↔ r.status = "Выполнено" := by
  rw [reclassifyRow]
  by_cases h : isOverduePending now r = true
  · rw [if_pos h]
    rcases isOverduePending_iff.1 h with ⟨h1, h2⟩
    refine iff_of_false (by simp) (fun hc => ?_)
    rw [hc] at h1
    exact absurd h1 (by decide)
  · rw [if_neg h]

lemma isOverduePending_reclassifyRow (now : Int) (r : Reminder) :
    isOverduePending now (reclassifyRow now r) = false := by
  rw [reclassifyRow]
  by_cases h : isOverduePending now r = true
  · rw [if_pos h]
    simp [isOverduePending]
  · rw [if_neg h]
    exact Bool.eq_false_iff.2 (fun hc => h hc)

lemma mem_update_overdue {now : Int} {db : List Reminder} {x : Reminder} :
    x ∈ update_overdue_reminders now db ↔ ∃ r, r ∈ db ∧ reclassifyRow now r = x := by
  rw [update_overdue_reminders]
  exact List.mem_map

lemma pairwise_update_overdue {now : Int} {db : List Reminder}
    (h : db.Pairwise (fun a b => a.id ≠ b.id)) :
    (update_overdue_reminders now db).Pairwise (fun a b => a.id ≠ b.id) := by
  rw [update_overdue_reminders]
  refine List.pairwise_map.2 (h.imp ?_)
  intro a b hab
  simpa [reclassifyRow_id] using hab

lemma pairwise_id_eq {db : List Reminder} (h : db.Pairwise (fun a b => a.id ≠ b.id))
    {r s : Reminder} (hr : r ∈ db) (hs : s ∈ db) (hid : r.id = s.id) : r = s := by
  induction db with
  | nil => cases hr
  | cons a tl ih =>
    rcases List.pairwise_cons.1 h with ⟨ha, htl⟩
    rcases List.mem_cons.1 hr with rfl | hr2
    · rcases List.mem_cons.1 hs with rfl | hs2
      · rfl
      · exact absurd hid (ha s hs2)
    · rcases List.mem_cons.1 hs with rfl | hs2
      · exact absurd hid.symm (ha r hr2)
      · exact ih htl hr2 hs2

lemma update_reminder_status_sets {i : Int} {s : String} {db : List Reminder} :
    ∀ x ∈ update_reminder_status i s db, x.id = i → x.status = s := by
  intro x hx hid
  rcases List.mem_map.1 hx with ⟨r, hr, hfr⟩
  by_cases h : r.id = i
  · rw [← hfr, if_pos h]
  · rw [← hfr, if_neg h] at hid
    exact absurd hid h

lemma update_reminder_status_preserves {i j : Int} {s t : String} {db : List Reminder}
    (hne : i ≠ j) (h : ∀ x ∈ db, x.id = j → x.status = t) :
    ∀ x ∈ update_reminder_status i s db, x.id = j → x.status = t := by
  intro x hx hid
  rcases List.mem_map.1 hx with ⟨r, hr, hfr⟩
  by_cases hc : r.id = i
  · rw [← hfr, if_pos hc] at hid
    exact absurd (hc ▸ hid) hne
  · rw [← hfr, if_neg hc] at hid ⊢
    exact h r hr hid

lemma foldl_tickStep_fired_mono {now : Int} {deliver : Int → Bool} :
    ∀ (l : List Reminder) (acc : List Reminder × List Int) (i : Int),
      i ∈ acc.2 → i ∈ (l.foldl (tickStep now deliver) acc).2 := by
  intro l
  induction l with
  | nil => intro acc i h; exact h
  | cons y tl ih =>
    intro acc i h
    simp only [List.foldl_cons]
    apply ih
    by_cases hdue : y.due ≤ now
    · simp only [tickStep, if_pos hdue]
      exact List.mem_append_left _ h
    · simpa only [tickStep, if_neg hdue] using h

lemma foldl_tickStep_keeps {now : Int} {deliver : Int → Bool} {j : Int} {t : String} :
    ∀ (l : List Reminder) (acc : List Reminder × List Int),
      (∀ x ∈ l, x.id ≠ j) →
      (∀ x ∈ acc.1, x.id = j → x.status = t) →
      ∀ x ∈ (l.foldl (tickStep now deliver) acc).1, x.id = j → x.status = t := by
  intro l
  induction l with
  | nil => intro acc _ hacc; exact hacc
  | cons y tl ih =>
    intro acc hl hacc
    simp only [List.foldl_cons]
    apply ih
    · intro x hx
      exact hl x (List.mem_cons_of_mem _ hx)
    · by_cases hdue : y.due ≤ now
      · simp only [tickStep, if_pos hdue]
        exact update_reminder_status_preserves (hl y (List.mem_cons_self _ _)) hacc
      · simpa only [tickStep, if_neg hdue] using hacc

lemma foldl_tickStep_fires {now : Int} {deliver : Int → Bool} {r : Reminder} :
    ∀ (l : List Reminder) (acc : List Reminder × List Int),
      r ∈ l → l.Pairwise (fun a b => a.id ≠ b.id) → r.due ≤ now →
      (∀ x ∈ (l.foldl (tickStep now deliver) acc).1, x.id = r.id → x.status = "Выполнено")
      ∧ r.id ∈ (l.foldl (tickStep now deliver) acc).2 := by
  intro l
  induction l with
  | nil => intro acc h; cases h
  | cons y tl ih =>
    intro acc hmem hpw hdue
    rcases List.pairwise_cons.1 hpw with ⟨hy, htl⟩
    rcases List.mem_cons.1 hmem with rfl | hmem2
    · simp only [List.foldl_cons, tickStep, if_pos hdue]
      constructor
      · exact foldl_tickStep_keeps tl _ (fun x hx => (hy x hx).symm)
          update_reminder_status_sets
      · exact foldl_tickStep_fired_mono tl _ _
          (List.mem_append_right _ (List.mem_singleton.2 rfl))
    · simp only [List.foldl_cons]
      exact ih (tickStep now deliver acc y) hmem2 htl hdue

lemma foldl_tickStep_fired_shape {now : Int} {deliver : Int → Bool} :
    ∀ (l : List Reminder) (acc : List Reminder × List Int) (i : Int),
      i ∈ (l.foldl (tickStep now deliver) acc).2 →
      i ∈ acc.2 ∨ ∃ z ∈ l, z.id = i ∧ z.due ≤ now := by
  intro l
  induction l with
  | nil => intro acc i h; exact Or.inl h
  | cons y tl ih =>
    intro acc i h
    simp only [List.foldl_cons] at h
    rcases ih _ i h with h1 | ⟨z, hz, hzi, hzd⟩
    · by_cases hdue : y.due ≤ now
      · simp only [tickStep, if_pos hdue] at h1
        rcases List.mem_append.1 h1 with h2 | h2
        · exact Or.inl h2
        · exact Or.inr ⟨y, List.mem_cons_self _ _, (List.mem_singleton.1 h2).symm, hdue⟩
      · simp only [tickStep, if_neg hdue] at h1
        exact Or.inl h1
    · exact Or.inr ⟨z, List.mem_cons_of_mem _ hz, hzi, hzd⟩

lemma get_reminders_pending (db : List Reminder) :
    get_reminders (some "Ожидает") "ASC" db = .ok (pendingOf db) := rfl

lemma check_reminders_eq (now rn : Int) (deliver : Int → Bool) (db : List Reminder) :
    check_reminders now rn deliver db =
      (pendingOf (update_overdue_reminders rn db)).foldl (tickStep now deliver)
        (update_overdue_reminders rn db, []) := by
  rw [check_reminders, get_reminders_pending]

lemma mem_pendingOf {db : List Reminder} {x : Reminder} :
    x ∈ pendingOf db ↔ x ∈ db ∧ x.status = "Ожидает" := by
  rw [pendingOf, (List.perm_insertionSort _ _).mem_iff, List.mem_filter]
  simp

lemma pairwise_pendingOf {db : List Reminder}
    (h : db.Pairwise (fun a b => a.id ≠ b.id)) :
    (pendingOf db).Pairwise (fun a b => a.id ≠ b.id) := by
  rw [pendingOf]
  exact ((List.perm_insertionSort _ _).pairwise_iff (fun hab => Ne.symm hab)).2
    (h.sublist (List.filter_sublist _))

lemma foldl_tickStep_shape {now : Int} {deliver : Int → Bool} :
    ∀ (l : List Reminder) (acc : List Reminder × List Int) (x : Reminder),
      x ∈ (l.foldl (tickStep now deliver) acc).1 →
      ∃ y ∈ acc.1, x = y ∨
        (x = { y with status := "Выполнено" } ∧ ∃ z ∈ l, z.id = y.id ∧ z.due ≤ now) := by
  intro l
  induction l with
  | nil =>
    intro acc x hx
    exact ⟨x, hx, Or.inl rfl⟩
  | cons w tl ih =>
    intro acc x hx
    simp only [List.foldl_cons] at hx
    rcases ih _ x hx with ⟨y, hy, hcase⟩
    by_cases hdue : w.due ≤ now
    · simp only [tickStep, if_pos hdue] at hy
      rcases List.mem_map.1 hy with ⟨a, ha, hfa⟩
      by_cases hid : a.id = w.id
      · rw [if_pos hid] at hfa
        subst hfa
        rcases hcase with hxy | ⟨hxy, z, hz, hzid, hzd⟩
        · exact ⟨a, ha, Or.inr ⟨hxy, w, List.mem_cons_self _ _, hid.symm, hdue⟩⟩
        · exact ⟨a, ha, Or.inr ⟨hxy, z, List.mem_cons_of_mem _ hz, hzid, hzd⟩⟩
      · rw [if_neg hid] at hfa
        subst hfa
        rcases hcase with hxy | ⟨hxy, z, hz, hzid, hzd⟩
        · exact ⟨a, ha, Or.inl hxy⟩
        · exact ⟨a, ha, Or.inr ⟨hxy, z, List.mem_cons_of_mem _ hz, hzid, hzd⟩⟩
    · simp only [tickStep, if_neg hdue] at hy
      rcases hcase with hxy | ⟨hxy, z, hz, hzid, hzd⟩
      · exact ⟨y, hy, Or.inl hxy⟩
      · exact ⟨y, hy, Or.inr ⟨hxy, z, List.mem_cons_of_mem _ hz, hzid, hzd⟩⟩

lemma pairPred_eq (now : Int) (r : Reminder) :
    (r.status == "Ожидает" && (reclassifyRow now r).status == "Просрочено")
      = isOverduePending now r := by
  by_cases h : isOverduePending now r = true
  · rcases isOverduePending_iff.1 h with ⟨h1, h2⟩
    rw [h, reclassifyRow_overdue h1 h2]
    simp [h1]
  · have hprop : ¬(r.status = "Ожидает" ∧ r.due < now - 120) :=
      fun hc => h (isOverduePending_iff.2 hc)
    rw [reclassifyRow_not_overdue hprop, Bool.eq_false_iff.2 h]
    by_cases hs : r.status = "Ожидает"
    · rw [hs]
      rfl
    · rw [beq_eq_false_iff_ne.2 hs, Bool.false_and]

lemma update_overdue_count_cons (now : Int) (r : Reminder) (tl : List Reminder) :
    update_overdue_count now (r :: tl)
      = (if isOverduePending now r then 1 else 0) + update_overdue_count now tl := by
  rw [update_overdue_count, update_overdue_count, List.filter_cons]
  by_cases h : isOverduePending now r = true
  · rw [if_pos h, if_pos h, List.length_cons]
    omega
  · rw [if_neg h, if_neg h]
    omega

lemma changedToOverdue_cons (now : Int) (r : Reminder) (tl : List Reminder) :
    changedToOverdue now (r :: tl)
      = (if isOverduePending now r then 1 else 0) + changedToOverdue now tl := by
  rw [changedToOverdue, changedToOverdue]
  show (((r, reclassifyRow now r) :: (tl.zip (update_overdue_reminders now tl))).filter
      (fun p => p.1.status == "Ожидает" && p.2.status == "Просрочено")).length = _
  rw [List.filter_cons]
  by_cases h : isOverduePending now r = true
  · rw [if_pos (by rw [pairPred_eq]; exact h), if_pos h, List.length_cons]
    omega
  · rw [if_neg (by rw [pairPred_eq]; exact h), if_neg h]
    omega

/-- C2: snooze with an empty active-notification slot only shows the
no-active-notification warning (the outcome the spec surfaces as
`NoActiveNotificationError`) and leaves the state — reminder table and
slot — exactly as it was. -/
theorem C2_snooze_empty_slot (minutes now : Int) (st : AppState)
    (h : st.active_notification_id = none) :
    snooze_reminder minutes now st = (SnoozeResult.noActiveNotification, st) := by
  rw [snooze_reminder, h]

/-- C2 witness at a concrete state. -/
theorem C2_snooze_empty_slot_witness :
    snooze_reminder 15 0 ⟨[⟨1, "т", "", 0, "Ожидает"⟩], none⟩
      = (SnoozeResult.noActiveNotification, ⟨[⟨1, "т", "", 0, "Ожидает"⟩], none⟩) :=
  C2_snooze_empty_slot 15 0 _ rfl

/-- C4: at reclassification time `now`, a Pending reminder due at
`now - 119` seconds is inside the two-minute grace buffer and keeps status
`Ожидает` (Pending) unchanged, while a Pending reminder due at `now - 121`
seconds is set to `Просрочено` (Overdue), wherever the two rows sit in the
table. -/
theorem C4_grace_boundary (now : Int) (pre post : List Reminder)
    (r1 r2 : Reminder)
    (_h1s : r1.status = "Ожидает") (h2s : r2.status = "Ожидает")
    (h1d : r1.due = now - 119) (h2d : r2.due = now - 121) :
    update_overdue_reminders now (pre ++ r1 :: r2 :: post)
      = update_overdue_reminders now pre
          ++ r1 :: { r2 with status := "Просрочено" }
          :: update_overdue_reminders now post := by
  have e1 : reclassifyRow now r1 = r1 := by
    apply reclassifyRow_not_overdue
    rintro ⟨-, hd⟩
    rw [h1d] at hd
    omega
  have e2 : reclassifyRow now r2 = { r2 with status := "Просрочено" } := by
    refine reclassifyRow_overdue h2s ?_
    rw [h2d]
    omega
  simp [update_overdue_reminders, e1, e2]

/-- C4 witness: now = 0, a table of exactly the two boundary rows. -/
theorem C4_grace_boundary_witness :
    update_overdue_reminders 0
        ([] ++ ⟨1, "а", "", -119, "Ожидает"⟩ :: ⟨2, "б", "", -121, "Ожидает"⟩ :: [])
      = update_overdue_reminders 0 []
          ++ ⟨1, "а", "", -119, "Ожидает"⟩
          :: { (⟨2, "б", "", -121, "Ожидает"⟩ : Reminder) with status := "Просрочено" }
          :: update_overdue_reminders 0 [] :=
  C4_grace_boundary 0 [] [] _ _ rfl rfl (by decide) (by decide)

/-- C6: reclassification is idempotent — right after
update_overdue_reminders has run at time `now`, running it again at the
same `now` matches zero rows, i.e. its `updated_count` is 0, whatever the
table held. -/
theorem C6_reclassify_idempotent (now : Int) (db : List Reminder) :
    update_overdue_count now (update_overdue_reminders now db) = 0 := by
  induction db with
  | nil => rfl
  | cons r tl ih =>
    show ((reclassifyRow now r :: update_overdue_reminders now tl).filter
        (isOverduePending now)).length = 0
    rw [List.filter_cons, isOverduePending_reclassifyRow]
    simpa [update_overdue_count] using ih

/-- C3 (amended): update_overdue_reminders returns no count — the method
body has no return statement, so a call evaluates to None — and the
`updated_count` it computes and prints equals the number of rows it changed
from `Ожидает` (Pending) to `Просрочено` (Overdue). -/
theorem C3_reclassify_count (now : Int) (db : List Reminder) :
    update_overdue_reminders_return now db = none
    ∧ update_overdue_count now db = changedToOverdue now db := by
  refine ⟨rfl, ?_⟩
  induction db with
  | nil => rfl
  | cons r tl ih =>
    rw [update_overdue_count_cons, changedToOverdue_cons, ih]

/-- C3 counterexample: on a table with one Pending row 200 seconds past
due, the run changes one row, yet the call returns None, not that count —
the claim that reclassifyOverdue returns the number of changed rows fails
on this input. -/
theorem C3_reclassify_count_counterexample :
    changedToOverdue 0 [⟨1, "т", "", -200, "Ожидает"⟩] = 1
    ∧ update_overdue_reminders_return 0 [⟨1, "т", "", -200, "Ожидает"⟩]
        ≠ some (changedToOverdue 0 [⟨1, "т", "", -200, "Ожидает"⟩]) := by
  refine ⟨by decide, ?_⟩
  intro h
  cases h

/-- C7: update_reminder with an empty title, or with a due_datetime string
that is empty or not parseable as ISO-8601, raises ValueError (named
ValidationError in the spec) for any existing reminder id; the UPDATE statement is
never reached, so the stored row is exactly as before the call — the
embedding yields a new table only in the `.ok` case. -/
theorem C7_update_validation (reminder_id : Int) (title description : String)
    (due_datetime : DateInput) (db : List Reminder)
    (_hex : ∃ r ∈ db, r.id = reminder_id)
    (hbad : title = "" ∨ ∀ t, due_datetime ≠ DateInput.iso t) :
    update_reminder reminder_id title description due_datetime db
      = .error DBError.valueError := by
  unfold update_reminder
  rcases hbad with h | h
  · rw [if_pos h]
  · by_cases ht : title = ""
    · rw [if_pos ht]
    · rw [if_neg ht]
      by_cases hid : reminder_id ≤ 0
      · rw [if_pos hid]
      · rw [if_neg hid]
        cases due_datetime with
        | empty => rfl
        | malformed s => rfl
        | iso t => exact absurd rfl (h t)

/-- C7 witness: empty title against an existing row. -/
theorem C7_update_validation_witness :
    (∃ r ∈ [(⟨1, "т", "", 0, "Ожидает"⟩ : Reminder)], r.id = 1)
    ∧ update_reminder 1 "" "d" (DateInput.iso 5) [⟨1, "т", "", 0, "Ожидает"⟩]
        = .error DBError.valueError :=
  ⟨⟨⟨1, "т", "", 0, "Ожидает"⟩, by decide, by decide⟩,
   C7_update_validation 1 "" "d" (DateInput.iso 5) _
     ⟨⟨1, "т", "", 0, "Ожидает"⟩, by decide, by decide⟩ (Or.inl rfl)⟩

/-- C8: update_reminder_status on an id present in no row raises nothing
and leaves the table exactly as it was — the UPDATE matches zero rows and
no row is created. -/
theorem C8_setStatus_missing (reminder_id : Int) (status : String)
    (db : List Reminder) (h : ∀ r ∈ db, r.id ≠ reminder_id) :
    update_reminder_status reminder_id status db = db := by
  induction db with
  | nil => rfl
  | cons r tl ih =>
    rw [update_reminder_status, List.map_cons,
      if_neg (h r (List.mem_cons_self _ _))]
    congr 1
    exact ih (fun x hx => h x (List.mem_cons_of_mem _ hx))

/-- C8 witness: id 5 against a one-row table holding id 1. -/
theorem C8_setStatus_missing_witness :
    update_reminder_status 5 "Выполнено" [⟨1, "т", "", 0, "Ожидает"⟩]
      = [⟨1, "т", "", 0, "Ожидает"⟩] :=
  C8_setStatus_missing 5 "Выполнено" _ (by decide)

/-- C9 (amended): get_reminders raises ValueError for every sort_order
other than "ASC"/"DESC", and for every truthy (non-empty) status_filter
other than "Все" and the four statuses; a falsy filter — None or the empty
string — slips past the truthiness guard and is treated as no filter. -/
theorem C9_list_validation (status_filter : Option String) (sort_order : String)
    (db : List Reminder)
    (h : ¬(sort_order = "ASC" ∨ sort_order = "DESC")
        ∨ ∃ s, status_filter = some s ∧ s ≠ "" ∧ s ≠ "Все"
            ∧ s ∉ ["Ожидает", "Выполнено", "Просрочено", "Отменено"]) :
    get_reminders status_filter sort_order db = .error DBError.valueError := by
  unfold get_reminders
  rcases h with h | ⟨s, rfl, h1, h2, h3⟩
  · rw [if_pos h]
  · by_cases hs : ¬(sort_order = "ASC" ∨ sort_order = "DESC")
    · rw [if_pos hs]
    · rw [if_neg hs, if_pos]
      simp [filterInvalid, h1, h2, h3]

/-- C9 witness: a misspelt status as the filter value. -/
theorem C9_list_validation_witness :
    get_reminders (some "Готово") "ASC" [] = .error DBError.valueError :=
  C9_list_validation (some "Готово") "ASC" []
    (Or.inr ⟨"Готово", rfl, by decide, by decide, by decide⟩)

/-- C9 counterexample: the empty string is neither "Все" nor one of the
four statuses, yet `get_reminders(status_filter="")` does not raise — the
falsy value passes the `if status_filter and ...` guard and behaves as
"all", refuting the claim as stated. -/
theorem C9_list_validation_counterexample :
    get_reminders (some "") "ASC" [] = .ok []
    ∧ ¬("" = "Все" ∨ "" ∈ ["Ожидает", "Выполнено", "Просрочено", "Отменено"]) :=
  ⟨rfl, by decide⟩

/-- C1 (code evaluated at the failing input): a reminder that was fired and
marked `Выполнено` (Completed) occupies the active-notification slot; the
user snoozes it by 15 minutes at time 0.  The stored due time does become
0 + 15 minutes, the description does get the audit suffix appended, and the
slot is cleared — but `_snooze_reminder` calls only `update_reminder`,
which never touches the `status` column, and it never calls
`update_reminder_status(id, "Ожидает")`, so the row keeps status
`Выполнено` instead of returning to `Ожидает` (Pending); the scheduler
fires only `Ожидает` rows, so the snoozed reminder will never fire. -/
theorem C1_snooze_keeps_status :
    snooze_reminder 15 0 ⟨[⟨1, "Встреча", "Обсуждение", -300, "Выполнено"⟩], some 1⟩
      = (SnoozeResult.snoozed,
          ⟨[⟨1, "Встреча", "Обсуждение" ++ snooze_suffix 15 0, 900, "Выполнено"⟩],
            none⟩) := by
  rfl

/-- C5: within one tick (tick clock `now`, reclassification clock `rn`,
read a moment later), every reminder that is still Pending after the
reclassification phase (status `Ожидает` with `rn - 120 ≤ due`) and is due
(`due ≤ now`) ends the tick marked `Выполнено` (Completed) and has a
notification attempt recorded — for an arbitrary delivery outcome
`deliver`, in particular a failing one: the `except` around
send_notification catches the failure, the status update still runs, and
processing continues with the remaining due reminders, so the whole tick
result never depends on `deliver` (third conjunct). -/
theorem C5_delivery_failure_isolated (now rn : Int) (deliver : Int → Bool)
    (db : List Reminder) (r : Reminder)
    (hids : db.Pairwise (fun a b => a.id ≠ b.id))
    (hmem : r ∈ db) (hst : r.status = "Ожидает")
    (hgrace : rn - 120 ≤ r.due) (hdue : r.due ≤ now) :
    (∀ x ∈ (check_reminders now rn deliver db).1,
        x.id = r.id → x.status = "Выполнено")
    ∧ r.id ∈ (check_reminders now rn deliver db).2
    ∧ check_reminders now rn deliver db
        = check_reminders now rn (fun _ => true) db := by
  have hkeep : reclassifyRow rn r = r :=
    reclassifyRow_not_overdue (fun hc => absurd hc.2 (by omega))
  have hmem1 : r ∈ update_overdue_reminders rn db :=
    mem_update_overdue.2 ⟨r, hmem, hkeep⟩
  have hpend : r ∈ pendingOf (update_overdue_reminders rn db) :=
    mem_pendingOf.2 ⟨hmem1, hst⟩
  have hpw2 := @pairwise_pendingOf (update_overdue_reminders rn db)
    (@pairwise_update_overdue rn db hids)
  rw [check_reminders_eq]
  obtain ⟨h1, h2⟩ := @foldl_tickStep_fires now deliver r
    (pendingOf (update_overdue_reminders rn db))
    (update_overdue_reminders rn db, []) hpend hpw2 hdue
  exact ⟨h1, h2, rfl⟩

/-- C5 witness: two due pending reminders, delivery failing on both. -/
theorem C5_delivery_failure_isolated_witness :
    (∀ x ∈ (check_reminders 0 0 (fun _ => false)
        [⟨1, "а", "", -60, "Ожидает"⟩, ⟨2, "б", "", -30, "Ожидает"⟩]).1,
        x.id = 1 → x.status = "Выполнено")
    ∧ (1 : Int) ∈ (check_reminders 0 0 (fun _ => false)
        [⟨1, "а", "", -60, "Ожидает"⟩, ⟨2, "б", "", -30, "Ожидает"⟩]).2
    ∧ check_reminders 0 0 (fun _ => false)
        [⟨1, "а", "", -60, "Ожидает"⟩, ⟨2, "б", "", -30, "Ожидает"⟩]
      = check_reminders 0 0 (fun _ => true)
        [⟨1, "а", "", -60, "Ожидает"⟩, ⟨2, "б", "", -30, "Ожидает"⟩] :=
  C5_delivery_failure_isolated 0 0 (fun _ => false)
    [⟨1, "а", "", -60, "Ожидает"⟩, ⟨2, "б", "", -30, "Ожидает"⟩]
    ⟨1, "а", "", -60, "Ожидает"⟩
    (by decide) (by decide) rfl (by decide) (by decide)

/-- C10: with tick clock `now` and the reclassification clock `rn` read no
earlier (`now ≤ rn`), a Pending reminder more than two minutes past due at
tick start is reclassified `Просрочено` in phase one, every row carrying
its id ends the tick `Просрочено`, and its id is never in the attempted
notification list; conversely every attempted id belongs to a row that was
Pending within the grace window at reclassification time and due at tick
time, and every row that ends the tick `Выполнено` either already was
`Выполнено` or was such a fired within-grace row. -/
theorem C10_grace_gates_firing (now rn : Int) (deliver : Int → Bool)
    (db : List Reminder)
    (hids : db.Pairwise (fun a b => a.id ≠ b.id))
    (hclock : now ≤ rn) :
    (∀ r ∈ db, r.status = "Ожидает" → r.due < now - 120 →
        (∀ x ∈ (check_reminders now rn deliver db).1,
            x.id = r.id → x.status = "Просрочено")
        ∧ r.id ∉ (check_reminders now rn deliver db).2)
    ∧ (∀ i ∈ (check_reminders now rn deliver db).2,
        ∃ r ∈ db, r.id = i ∧ r.status = "Ожидает"
          ∧ rn - 120 ≤ r.due ∧ r.due ≤ now)
    ∧ (∀ x ∈ (check_reminders now rn deliver db).1, x.status = "Выполнено" →
        ∃ r ∈ db, r.id = x.id
          ∧ (r.status = "Выполнено"
             ∨ (r.status = "Ожидает" ∧ rn - 120 ≤ r.due ∧ r.due ≤ now))) := by
  rw [check_reminders_eq]
  refine ⟨?_, ?_, ?_⟩
  · intro r hr hst hdue
    have hover : reclassifyRow rn r = { r with status := "Просрочено" } :=
      reclassifyRow_overdue hst (by omega)
    constructor
    · apply foldl_tickStep_keeps
      · intro x hx hxid
        rcases mem_pendingOf.1 hx with ⟨hx1, hxst⟩
        rcases mem_update_overdue.1 hx1 with ⟨a, ha, hax⟩
        have haid : a.id = r.id := by
          rw [← reclassifyRow_id rn a, hax, hxid]
        have har : a = r := pairwise_id_eq hids ha hr haid
        rw [har, hover] at hax
        rw [← hax] at hxst
        exact absurd hxst (by simp)
      · intro x hx hxid
        rcases mem_update_overdue.1 hx with ⟨a, ha, hax⟩
        have haid : a.id = r.id := by
          rw [← reclassifyRow_id rn a, hax, hxid]
        have har : a = r := pairwise_id_eq hids ha hr haid
        rw [har, hover] at hax
        rw [← hax]
    · intro hin
      rcases foldl_tickStep_fired_shape _ _ _ hin with h0 | ⟨z, hz, hzid, hzd⟩
      · exact absurd h0 (List.not_mem_nil _)
      · rcases mem_pendingOf.1 hz with ⟨hz1, hzst⟩
        rcases mem_update_overdue.1 hz1 with ⟨a, ha, haz⟩
        have haid : a.id = r.id := by
          rw [← reclassifyRow_id rn a, haz, hzid]
        have har : a = r := pairwise_id_eq hids ha hr haid
        rw [har, hover] at haz
        rw [← haz] at hzst
        exact absurd hzst (by simp)
  · intro i hi
    rcases foldl_tickStep_fired_shape _ _ _ hi with h0 | ⟨z, hz, hzid, hzd⟩
    · exact absurd h0 (List.not_mem_nil _)
    · rcases mem_pendingOf.1 hz with ⟨hz1, hzst⟩
      rcases mem_update_overdue.1 hz1 with ⟨a, ha, haz⟩
      rw [← haz] at hzst
      rcases reclassifyRow_status_pending.1 hzst with ⟨has, hand⟩
      refine ⟨a, ha, ?_, has, by omega, ?_⟩
      · rw [← reclassifyRow_id rn a, haz, hzid]
      · have : a.due = z.due := by rw [← reclassifyRow_due rn a, haz]
        omega
  · intro x hx hxst
    rcases foldl_tickStep_shape _ _ x hx with ⟨y, hy, hcase⟩
    rcases mem_update_overdue.1 hy with ⟨a, ha, hay⟩
    rcases hcase with rfl | ⟨hxy, z, hz, hzid, hzd⟩
    · rw [← hay] at hxst
      refine ⟨a, ha, ?_, Or.inl (reclassifyRow_status_completed.1 hxst)⟩
      rw [← reclassifyRow_id rn a, hay]
    · rcases mem_pendingOf.1 hz with ⟨hz1, hzst⟩
      rcases mem_update_overdue.1 hz1 with ⟨b, hb, hbz⟩
      rw [← hbz] at hzst
      rcases reclassifyRow_status_pending.1 hzst with ⟨hbs, hbnd⟩
      have hbdue : b.due = z.due := by rw [← reclassifyRow_due rn b, hbz]
      have hbid : b.id = x.id := by
        rw [← reclassifyRow_id rn b, hbz, hzid, hxy]
      exact ⟨b, hb, hbid, Or.inr ⟨hbs, by omega, by omega⟩⟩

/-- C10 witness: one reminder 200 seconds past due, one 60 seconds past
due, same clock for tick and reclassification, failing delivery. -/
theorem C10_grace_gates_firing_witness :
    (∀ r ∈ [(⟨1, "а", "", -200, "Ожидает"⟩ : Reminder), ⟨2, "б", "", -60, "Ожидает"⟩],
        r.status = "Ожидает" → r.due < 0 - 120 →
        (∀ x ∈ (check_reminders 0 0 (fun _ => false)
            [⟨1, "а", "", -200, "Ожидает"⟩, ⟨2, "б", "", -60, "Ожидает"⟩]).1,
            x.id = r.id → x.status = "Просрочено")
        ∧ r.id ∉ (check_reminders 0 0 (fun _ => false)
            [⟨1, "а", "", -200, "Ожидает"⟩, ⟨2, "б", "", -60, "Ожидает"⟩]).2)
    ∧ (∀ i ∈ (check_reminders 0 0 (fun _ => false)
        [⟨1, "а", "", -200, "Ожидает"⟩, ⟨2, "б", "", -60, "Ожидает"⟩]).2,
        ∃ r ∈ [(⟨1, "а", "", -200, "Ожидает"⟩ : Reminder), ⟨2, "б", "", -60, "Ожидает"⟩],
          r.id = i ∧ r.status = "Ожидает" ∧ 0 - 120 ≤ r.due ∧ r.due ≤ 0)
    ∧ (∀ x ∈ (check_reminders 0 0 (fun _ => false)
        [⟨1, "а", "", -200, "Ожидает"⟩, ⟨2, "б", "", -60, "Ожидает"⟩]).1,
        x.status = "Выполнено" →
        ∃ r ∈ [(⟨1, "а", "", -200, "Ожидает"⟩ : Reminder), ⟨2, "б", "", -60, "Ожидает"⟩],
          r.id = x.id
          ∧ (r.status = "Выполнено"
             ∨ (r.status = "Ожидает" ∧ 0 - 120 ≤ r.due ∧ r.due ≤ 0))) :=
  C10_grace_gates_firing 0 0 (fun _ => false)
    [⟨1, "а", "", -200, "Ожидает"⟩, ⟨2, "б", "", -60, "Ожидает"⟩]
    (by decide) (by decide)
